import Mathlib

/-!
Verification of the shared OAuth2 credential-lifecycle core of the
spyglass-search third-party-apis repository, as a shallow embedding in Lean.

The embedding translates `crates/auth_core/src/lib.rs` (the `Credentials`
model, `ApiError`, and the `ApiClient` trait's default methods) together with
the provider clients in `crates/github/src/lib.rs`, `crates/hubspot/src/lib.rs`
and `crates/reddit/src/lib.rs`.

Modelling conventions:
* A `chrono::DateTime<Utc>` instant is an `Int` of nanoseconds since the epoch;
  subtraction of two instants is `Int` subtraction (chrono `DateTime`
  subtraction cannot overflow inside chrono's representable date range).
* A `std::time::Duration` is `StdDuration` (`secs : Nat` for the `u64` of
  seconds, `nanos : Nat` for the sub-second nanoseconds).
* `chrono::Duration::from_std` fails exactly when the standard duration
  exceeds `i64::MAX` milliseconds; `Credentials.is_expired` therefore returns
  an `Option Bool`, with `none` modelling the `expect` panic in the source.
* Fallible Rust functions return `Except`; `anyhow` error values are the
  `Display` strings they carry.
* Network round trips (token exchange, refresh exchange) are parameters of
  type `String → Except ε BasicTokenResponse`, so theorems quantify over every
  possible provider behaviour.
* The `tokio::sync::watch` channel is `WatchChannel`, holding the last
  published value and the number of live receivers; `watch::Sender::send`
  fails (with the message "channel closed") exactly when no receiver is alive.
-/

/-- `std::time::Duration`: `secs` is the `u64` number of whole seconds,
`nanos < 10^9` the sub-second nanoseconds. -/
structure StdDuration where
  secs : Nat
  nanos : Nat
deriving DecidableEq, Repr

/-- Total length of a `std::time::Duration` in nanoseconds. -/
def StdDuration.toNanos (d : StdDuration) : Nat :=
  d.secs * 1000000000 + d.nanos

/-- The largest value representable by `chrono::Duration`, in nanoseconds:
`i64::MAX` milliseconds.  `chrono::Duration::from_std` returns `Err` exactly
when the standard duration exceeds this. -/
def chronoMaxNanos : Nat := (2 ^ 63 - 1) * 1000000

/-- `oauth2::basic::BasicTokenResponse`, restricted to the accessors the
repository uses: `access_token()`, `refresh_token()`, `expires_in()`. -/
structure BasicTokenResponse where
  access_token : String
  refresh_token : Option String
  expires_in : Option StdDuration
deriving DecidableEq, Repr

/-- `libauth::Credentials` (crates/auth_core/src/lib.rs, lines 124-130).
`requested_at` is the issuance instant in nanoseconds since the epoch. -/
structure Credentials where
  requested_at : Int
  access_token : String
  refresh_token : Option String
  expires_in : Option StdDuration
deriving DecidableEq, Repr

/-- `Credentials::is_expired` (crates/auth_core/src/lib.rs, lines 152-160):
```
if let Some(duration) = self.expires_in {
    let now = Utc::now();
    let dur = chrono::Duration::from_std(duration).expect("Unable to convert duration");
    return (now - self.requested_at) > dur;
}
false
```
`now` is passed explicitly; the result is `none` when
`chrono::Duration::from_std` fails and the `expect` panics. -/
def Credentials.is_expired (c : Credentials) (now : Int) : Option Bool :=
  match c.expires_in with
  | some duration =>
      if duration.toNanos ≤ chronoMaxNanos then
        some (decide ((duration.toNanos : Int) < now - c.requested_at))
      else
        none
  | none => some false

/-- `Credentials::refresh_token` (crates/auth_core/src/lib.rs, lines 162-167),
the spec's `apply_token_response` (renamed here because the source method
shadows the field of the same name):
```
self.requested_at = Utc::now();
self.access_token = resp.access_token().clone();
self.refresh_token = resp.refresh_token().cloned();
self.expires_in = resp.expires_in();
```
-/
def Credentials.apply_token_response (_c : Credentials) (now : Int)
    (resp : BasicTokenResponse) : Credentials :=
  { requested_at := now
  , access_token := resp.access_token
  , refresh_token := resp.refresh_token
  , expires_in := resp.expires_in }

/-- `libauth::ApiError` (crates/auth_core/src/lib.rs, lines 22-34).
`RequestError` wraps a `reqwest::Error`; the only datum of such an error that
the repository inspects is `err.status()`, so it is modelled as that
`Option` of an HTTP status code (a `reqwest` status error produced by
`Response::error_for_status` carries the status; a body-decode error carries
none — neither retains the response body). -/
inductive ApiError where
  | AuthError (msg : String)
  | BadRequest (msg : String)
  | RequestError (status : Option Nat)
  | SerdeError (msg : String)
  | Other (msg : String)
deriving DecidableEq, Repr

/-- An HTTP response as seen by `call_json`: its status code, and the outcome
of `resp.json::<serde_json::Value>()` on its body (`some v` when the body
parses as the JSON value rendered `v`, `none` when parsing fails). -/
structure HttpResponse where
  status : Nat
  json_body : Option String
deriving DecidableEq, Repr

/-- `reqwest::StatusCode::is_client_error`: 400 ≤ status ≤ 499. -/
def StatusCode.is_client_error (s : Nat) : Bool := 400 ≤ s && s < 500

/-- `reqwest::StatusCode::is_server_error`: 500 ≤ status ≤ 599. -/
def StatusCode.is_server_error (s : Nat) : Bool := 500 ≤ s && s < 600

/-- `reqwest::Response::error_for_status`: returns the response unchanged
unless the status is a client or server error (400-599), in which case it
returns a `reqwest::Error` carrying that status (and not the body). -/
def HttpResponse.error_for_status (r : HttpResponse) :
    Except (Option Nat) HttpResponse :=
  if StatusCode.is_client_error r.status || StatusCode.is_server_error r.status then
    .error (some r.status)
  else
    .ok r

/-- The response-classification part of `ApiClient::call_json`
(crates/auth_core/src/lib.rs, lines 101-121), applied to the response obtained
from `call`:
```
match resp.error_for_status() {
    Ok(resp) => match resp.json().await { Ok(res) => Ok(res), Err(err) => Err(err.into()) },
    Err(err) => {
        if let Some(StatusCode::UNAUTHORIZED) = err.status() {
            Err(ApiError::AuthError("Unauthorized".to_owned()))
        } else {
            Err(err.into())
        }
    }
}
```
-/
def call_json_response (r : HttpResponse) : Except ApiError String :=
  match r.error_for_status with
  | .ok resp =>
      match resp.json_body with
      | some res => .ok res
      | none => .error (.RequestError none)
  | .error errStatus =>
      if errStatus = some 401 then
        .error (.AuthError "Unauthorized")
      else
        .error (.RequestError errStatus)

/-- `ApiClient::get_check_client` (crates/auth_core/src/lib.rs, lines 69-81),
the trait's default method, parametrised by the implementing client's state
type `σ`, its `credentials()` and `http_client()` accessors and its
`refresh_credentials` implementation.  The result is `none` when
`is_expired` panics; otherwise it is the returned `Result`, the number of
`refresh_credentials` invocations performed, and the final client state. -/
def get_check_client {σ H : Type} (credentials : σ → Credentials)
    (http_client : σ → H) (refresh_credentials : σ → Except String σ)
    (now : Int) (st : σ) : Option (Except ApiError H × Nat × σ) :=
  match (credentials st).is_expired now with
  | none => none
  | some true =>
      match refresh_credentials st with
      | .error err =>
          some (.error (.AuthError ("Unable to refresh credentials: " ++ err)), 1, st)
      | .ok st1 => some (.ok (http_client st1), 1, st1)
  | some false => some (.ok (http_client st), 0, st)

/-- Whether a byte is a UTF-8 continuation byte (`0x80..=0xBF`). -/
def isUtf8Cont (b : Nat) : Bool := 0x80 ≤ b && b ≤ 0xBF

/-- `std::str::from_utf8` over a byte sequence, returning the decoded
characters when the bytes are valid UTF-8 (RFC 3629: shortest forms only, no
surrogates, code points at most `0x10FFFF`) and `none` otherwise. -/
def utf8DecodeChars : List Nat → Option (List Char)
  | [] => some []
  | b0 :: bs =>
    if b0 ≤ 0x7F then
      match utf8DecodeChars bs with
      | some cs => some (Char.ofNat b0 :: cs)
      | none => none
    else if b0 < 0xC2 then none
    else if b0 ≤ 0xDF then
      match bs with
      | b1 :: bs1 =>
        if isUtf8Cont b1 then
          match utf8DecodeChars bs1 with
          | some cs => some (Char.ofNat ((b0 - 0xC0) * 0x40 + (b1 - 0x80)) :: cs)
          | none => none
        else none
      | [] => none
    else if b0 ≤ 0xEF then
      match bs with
      | b1 :: b2 :: bs1 =>
        let okB1 :=
          if b0 = 0xE0 then 0xA0 ≤ b1 && b1 ≤ 0xBF
          else if b0 = 0xED then 0x80 ≤ b1 && b1 ≤ 0x9F
          else isUtf8Cont b1
        if okB1 && isUtf8Cont b2 then
          match utf8DecodeChars bs1 with
          | some cs =>
              some (Char.ofNat ((b0 - 0xE0) * 0x1000 + (b1 - 0x80) * 0x40 + (b2 - 0x80)) :: cs)
          | none => none
        else none
      | _ => none
    else if b0 ≤ 0xF4 then
      match bs with
      | b1 :: b2 :: b3 :: bs1 =>
        let okB1 :=
          if b0 = 0xF0 then 0x90 ≤ b1 && b1 ≤ 0xBF
          else if b0 = 0xF4 then 0x80 ≤ b1 && b1 ≤ 0x8F
          else isUtf8Cont b1
        if okB1 && isUtf8Cont b2 && isUtf8Cont b3 then
          match utf8DecodeChars bs1 with
          | some cs =>
              some (Char.ofNat
                ((b0 - 0xF0) * 0x40000 + (b1 - 0x80) * 0x1000
                  + (b2 - 0x80) * 0x40 + (b3 - 0x80)) :: cs)
          | none => none
        else none
      | _ => none
    else none

/-- `std::str::from_utf8(&og).map(|x| x.to_string())` as an `Option String`. -/
def utf8DecodeString (bytes : List Nat) : Option String :=
  (utf8DecodeChars bytes).map String.mk

/-- `oauth2::RequestTokenError`, restricted to the shape the hubspot client
matches on: `Parse(serde_error, raw_body_bytes)` for a token-endpoint reply
whose error body failed to parse as the standard OAuth error JSON, and every
other variant collapsed to its `Display` string. -/
inductive RequestTokenError where
  | Parse (err_msg : String) (og : List Nat)
  | OtherErr (msg : String)
deriving DecidableEq, Repr

/-- The error-message extraction of `HubspotClient::token_exchange`
(crates/hubspot/src/lib.rs, lines 190-201) and of the failure branch of
`HubspotClient::refresh_credentials` (lines 212-225):
```
RequestTokenError::Parse(err, og) => {
    let msg = std::str::from_utf8(&og)
        .map(|x| x.to_string())
        .unwrap_or(err.to_string());
    Err(anyhow!(msg))
}
x => Err(anyhow!(x.to_string())),
```
-/
def hubspotTokenErrorMsg : RequestTokenError → String
  | .Parse err_msg og => (utf8DecodeString og).getD err_msg
  | .OtherErr msg => msg

/-- A `tokio::sync::watch` channel: the last value published through it and
the number of live receivers. -/
structure WatchChannel where
  value : Credentials
  receivers : Nat
deriving DecidableEq, Repr

/-- `tokio::sync::watch::Sender::send`: succeeds and replaces the stored value
while at least one receiver is alive, and fails otherwise.  The anyhow error
produced by the `?` in the source carries the `SendError` display text
"channel closed". -/
def WatchChannel.send (ch : WatchChannel) (v : Credentials) :
    Except String WatchChannel :=
  if ch.receivers = 0 then .error "channel closed"
  else .ok { ch with value := v }

/-- Whether a character may appear in an HTTP header value:
`http::header::HeaderValue::from_str` accepts a string iff every byte of its
UTF-8 encoding is either `\t` (9) or in `32..=255` excluding DEL (127).  A
character with code point at least 128 encodes to bytes in `0x80..=0xF4`,
which are all accepted, so validity is decided per character: code 9, or
code at least 32 and different from 127. -/
def isValidHeaderChar (c : Char) : Bool :=
  (c.toNat == 9 || 32 ≤ c.toNat) && c.toNat != 127

/-- `libauth::auth_http_client` (crates/auth_core/src/lib.rs, lines 175-184):
builds a `reqwest::Client` whose default `Authorization` header is
`Bearer {token}` — the client is identified here by the bearer token it was
built with.  The construction fails exactly when
`HeaderValue::from_str(&format!("Bearer {token}"))` does, i.e. when the token
contains a character that is not a legal header-value byte (the literal
`Bearer ` prefix is always legal); the propagated error displays as
`http::header::InvalidHeaderValue` does, "failed to parse header value". -/
def auth_http_client (token : String) : Except String String :=
  if token.toList.all isValidHeaderChar then .ok token
  else .error "failed to parse header value"

/-- The mutable state of a channel-based provider client (`GithubClient`,
crates/github/src/lib.rs lines 28-34, and `HubspotClient`,
crates/hubspot/src/lib.rs lines 105-112): its `credentials`, its configured
HTTP client — identified by the bearer token `auth_http_client` installed —
and its `on_refresh` watch channel.  (`HubspotClient.secret` only
parametrises the outbound token requests, which are abstracted into the
exchange function, so it does not appear in the state.) -/
structure ProviderState where
  credentials : Credentials
  http : String
  channel : WatchChannel
deriving DecidableEq, Repr

/-- The outcome of one `refresh_credentials` call: the client state after the
call, the returned `Result`, and the list of values published on the
channel during the call. -/
structure RefreshOutcome where
  state : ProviderState
  result : Except String Unit
  published : List Credentials
deriving Repr

/-- `GithubClient::refresh_credentials` (crates/github/src/lib.rs,
lines 111-126), with the refresh-token network exchange abstracted as
`exchange`:
```
if let Some(refresh_token) = &self.credentials.refresh_token {
    let new_token = self.oauth.exchange_refresh_token(refresh_token)
        .request_async(async_http_client).await?;
    self.credentials.refresh_token(&new_token);
    self.http = auth_http_client(new_token.access_token().secret())?;
    self.on_refresh_tx.send(self.credentials.clone())?;
}
Ok(())
```
The `auth_http_client(..)?` between the exchange and the publish is fallible:
when the new access token is not a legal header value the function returns
that error with the credentials already mutated but the HTTP client untouched
and nothing published. -/
def GithubClient.refresh_credentials (now : Int) (st : ProviderState)
    (exchange : String → Except String BasicTokenResponse) : RefreshOutcome :=
  match st.credentials.refresh_token with
  | none => ⟨st, .ok (), []⟩
  | some rt =>
    match exchange rt with
    | .error e => ⟨st, .error e, []⟩
    | .ok new_token =>
      let creds := st.credentials.apply_token_response now new_token
      match auth_http_client new_token.access_token with
      | .error e => ⟨{ st with credentials := creds }, .error e, []⟩
      | .ok http =>
        match st.channel.send creds with
        | .error e => ⟨{ st with credentials := creds, http := http }, .error e, []⟩
        | .ok ch =>
            ⟨{ st with credentials := creds, http := http, channel := ch },
              .ok (), [creds]⟩

/-- `HubspotClient::refresh_credentials` (crates/hubspot/src/lib.rs,
lines 204-234): identical to the github version — including the fallible
`auth_http_client(..)?` before the publish — except that the exchange carries
the hubspot client credentials as extra body parameters (inside `exchange`)
and a failed exchange is mapped through the `Parse`/raw-bytes fallback of
`hubspotTokenErrorMsg`. -/
def HubspotClient.refresh_credentials (now : Int) (st : ProviderState)
    (exchange : String → Except RequestTokenError BasicTokenResponse) :
    RefreshOutcome :=
  match st.credentials.refresh_token with
  | none => ⟨st, .ok (), []⟩
  | some rt =>
    match exchange rt with
    | .error e => ⟨st, .error (hubspotTokenErrorMsg e), []⟩
    | .ok new_token =>
      let creds := st.credentials.apply_token_response now new_token
      match auth_http_client new_token.access_token with
      | .error e => ⟨{ st with credentials := creds }, .error e, []⟩
      | .ok http =>
        match st.channel.send creds with
        | .error e => ⟨{ st with credentials := creds, http := http }, .error e, []⟩
        | .ok ch =>
            ⟨{ st with credentials := creds, http := http, channel := ch },
              .ok (), [creds]⟩

/-- The mutable state of `RedditClient` (crates/reddit/src/lib.rs,
lines 22-28), which predates the watch channel: its `on_refresh` boxed
callback is modelled by the list of values it has been invoked with. -/
structure RedditState where
  credentials : Credentials
  http : String
  on_refresh_calls : List Credentials
deriving DecidableEq, Repr

/-- The outcome of one `RedditClient::refresh_credentials` call. -/
structure RedditRefreshOutcome where
  state : RedditState
  result : Except String Unit
deriving Repr

/-- `RedditClient::refresh_credentials` (crates/reddit/src/lib.rs,
lines 107-122): like the github version — the `auth_http_client(..)?` after
the exchange is equally fallible — but the new credentials are handed to the
`on_refresh` callback, which cannot fail. -/
def RedditClient.refresh_credentials (now : Int) (st : RedditState)
    (exchange : String → Except String BasicTokenResponse) :
    RedditRefreshOutcome :=
  match st.credentials.refresh_token with
  | none => ⟨st, .ok ()⟩
  | some rt =>
    match exchange rt with
    | .error e => ⟨st, .error e⟩
    | .ok new_token =>
      let creds := st.credentials.apply_token_response now new_token
      match auth_http_client new_token.access_token with
      | .error e => ⟨{ st with credentials := creds }, .error e⟩
      | .ok http =>
          ⟨{ credentials := creds, http := http
            , on_refresh_calls := st.on_refresh_calls ++ [creds] }, .ok ()⟩

/-- Turns a provider `refresh_credentials` model into the
`σ → Except String σ` shape consumed by `get_check_client`. -/
def githubRefreshFn (now : Int)
    (exchange : String → Except String BasicTokenResponse) :
    ProviderState → Except String ProviderState := fun st =>
  let o := GithubClient.refresh_credentials now st exchange
  match o.result with
  | .ok _ => .ok o.state
  | .error e => .error e

/-- `libauth::AuthorizeOptions` (crates/auth_core/src/lib.rs, lines 36-40). -/
structure AuthorizeOptions where
  pkce : Bool
  extra_params : List (String × String)
deriving DecidableEq, Repr

/-- `libauth::AuthorizationRequest` (crates/auth_core/src/lib.rs,
lines 143-149).  The authorization URL is represented by its list of query
parameters (the endpoint base is fixed per provider and carries no logic);
`pkce_challenge` is the challenge string of the `PkceCodeChallenge`. -/
structure AuthorizationRequest where
  url_params : List (String × String)
  csrf_token : String
  pkce_challenge : Option String
  pkce_verifier : Option String
deriving DecidableEq, Repr

/-- The query parameters produced by `oauth2::Client::authorize_url`'s
builder followed by `.url()`: `response_type=code`, `client_id`, `state`,
then `code_challenge`/`code_challenge_method=S256` when a PKCE challenge was
set, `redirect_uri` when configured, the space-joined `scope` (every client in
this repository calls `add_scopes`, so the parameter is always present), and
finally the `add_extra_param` pairs in order. -/
def oauth2AuthorizeUrlParams (client_id : String) (redirect_uri : Option String)
    (state : String) (pkce_challenge : Option String) (scopes : List String)
    (extra_params : List (String × String)) : List (String × String) :=
  [("response_type", "code"), ("client_id", client_id), ("state", state)]
    ++ (match pkce_challenge with
        | some ch => [("code_challenge", ch), ("code_challenge_method", "S256")]
        | none => [])
    ++ (match redirect_uri with
        | some r => [("redirect_uri", r)]
        | none => [])
    ++ [("scope", String.intercalate " " scopes)]
    ++ extra_params

/-- `GithubClient::authorize` (crates/github/src/lib.rs, lines 69-91): the
`AuthorizeOptions` argument is bound as `_` and ignored; a PKCE challenge is
always generated and attached, and no extra parameters are ever added.  The
randomly generated CSRF state and PKCE challenge/verifier are passed in as
`csrf`, `challenge`, `verifier`. -/
def GithubClient.authorize (client_id redirect_uri : String)
    (scopes : List String) (_opts : AuthorizeOptions)
    (csrf challenge verifier : String) : AuthorizationRequest :=
  { url_params :=
      oauth2AuthorizeUrlParams client_id (some redirect_uri) csrf
        (some challenge) scopes []
  , csrf_token := csrf
  , pkce_challenge := some challenge
  , pkce_verifier := some verifier }

/-- `HubspotClient::authorize` (crates/hubspot/src/lib.rs, lines 152-176):
appends every pair of `options.extra_params` to the URL, never sets a PKCE
challenge, and returns `pkce_challenge = None, pkce_verifier = None`. -/
def HubspotClient.authorize (client_id redirect_uri : String)
    (scopes : List String) (opts : AuthorizeOptions) (csrf : String) :
    AuthorizationRequest :=
  { url_params :=
      oauth2AuthorizeUrlParams client_id (some redirect_uri) csrf
        none scopes opts.extra_params
  , csrf_token := csrf
  , pkce_challenge := none
  , pkce_verifier := none }

/-- `RedditClient::authorize` (crates/reddit/src/lib.rs, lines 64-87): the
`AuthorizeOptions` argument is bound as `_` and ignored; the client hardcodes
`add_extra_param("duration", "permanent")` and always attaches a PKCE
challenge. -/
def RedditClient.authorize (client_id redirect_uri : String)
    (scopes : List String) (_opts : AuthorizeOptions)
    (csrf challenge verifier : String) : AuthorizationRequest :=
  { url_params :=
      oauth2AuthorizeUrlParams client_id (some redirect_uri) csrf
        (some challenge) scopes [("duration", "permanent")]
  , csrf_token := csrf
  , pkce_challenge := some challenge
  , pkce_verifier := some verifier }

/-- C1 (counterexample): a `Credentials` holding `refresh_token = Some "r1")`
updated by a token response with no refresh token does not keep `Some "r1"` —
the field is overwritten with `None`. -/
theorem apply_token_response_drops_refresh_token :
    (Credentials.apply_token_response ⟨0, "a1", some "r1", none⟩ 5
        ⟨"a2", none, none⟩).refresh_token ≠ some "r1" := by
  decide

/-- C1 (amended): `Credentials::refresh_token` copies the response's
`refresh_token` field unconditionally, so the updated credential's refresh
token always equals the response's (and is `None` — not the previous value —
whenever the response omits one). -/
theorem apply_token_response_refresh_token_eq (c : Credentials) (now : Int)
    (resp : BasicTokenResponse) :
    (c.apply_token_response now resp).refresh_token = resp.refresh_token := rfl

/-- C2 (counterexample): a 304 response has a non-2xx status, yet `call_json`
does not return it as any error: `error_for_status` passes every status
outside 400-599 through, and the parsed JSON body is returned as a success. -/
theorem call_json_non2xx_not_always_error :
    ¬ (200 ≤ 304 ∧ 304 < 300) ∧
    call_json_response ⟨304, some "null"⟩ = .ok "null" := by
  exact ⟨by decide, rfl⟩

/-- C2 (amended): for a response whose status is in 400-599, `call_json`
returns `ApiError::AuthError` exactly when the status is 401, and every other
4xx/5xx status is returned as a generic `RequestError` carrying that status
(statuses outside 400-599 are not turned into status errors at all, and the
error produced by `error_for_status` retains the status but not the body). -/
theorem call_json_classifies_4xx_5xx (r : HttpResponse)
    (h1 : 400 ≤ r.status) (h2 : r.status ≤ 599) :
    (call_json_response r = .error (.AuthError "Unauthorized") ↔ r.status = 401) ∧
    (r.status ≠ 401 →
      call_json_response r = .error (.RequestError (some r.status))) := by
  have hcs : (StatusCode.is_client_error r.status
      || StatusCode.is_server_error r.status) = true := by
    simp [StatusCode.is_client_error, StatusCode.is_server_error]
    omega
  have hred : call_json_response r
      = if r.status = 401 then .error (.AuthError "Unauthorized")
        else .error (.RequestError (some r.status)) := by
    simp [call_json_response, HttpResponse.error_for_status, hcs]
  constructor
  · constructor
    · intro h
      by_contra hne
      rw [hred, if_neg hne] at h
      simp at h
    · intro h
      rw [hred, if_pos h]
  · intro hne
    rw [hred, if_neg hne]

/-- C2 (witness): a 404 response with a JSON body is classified as a
`RequestError` carrying status 404, not as an `AuthError`. -/
theorem call_json_classifies_4xx_5xx_witness :
    call_json_response ⟨404, some "null"⟩ = .error (.RequestError (some 404)) := by
  exact (call_json_classifies_4xx_5xx ⟨404, some "null"⟩ (by decide) (by decide)).2
    (by decide)

/-- C3: for any client state, if the current credentials are not expired
`get_check_client` returns the currently configured HTTP client with zero
`refresh_credentials` invocations and an unchanged state; if they are expired
and `refresh_credentials` fails with message `e`, the error is propagated as
`ApiError::AuthError` with the context prefix from the source format string. -/
theorem get_check_client_gating {σ H : Type} (credentials : σ → Credentials)
    (http_client : σ → H) (refresh : σ → Except String σ) (now : Int) (st : σ) :
    ((credentials st).is_expired now = some false →
      get_check_client credentials http_client refresh now st
        = some (.ok (http_client st), 0, st)) ∧
    (∀ e, (credentials st).is_expired now = some true → refresh st = .error e →
      get_check_client credentials http_client refresh now st
        = some (.error (.AuthError ("Unable to refresh credentials: " ++ e)), 1, st)) := by
  constructor
  · intro h
    simp [get_check_client, h]
  · intro e h1 h2
    simp [get_check_client, h1, h2]

/-- C3 (witness): a client with a never-expiring credential gets its HTTP
client back untouched with zero refresh calls, even though its
`refresh_credentials` would fail if invoked. -/
theorem get_check_client_gating_witness :
    get_check_client (fun _ : Unit => ⟨0, "tok", none, none⟩) (fun _ => 7)
      (fun _ => .error "boom") 0 () = some (.ok 7, 0, ()) := by
  exact (get_check_client_gating (fun _ : Unit => ⟨0, "tok", none, none⟩)
    (fun _ => 7) (fun _ => .error "boom") 0 ()).1 rfl

/-- C4: `is_expired` is `false` whenever `expires_in` is `None`, for every
`requested_at` and every current instant; and when `expires_in = Some d` (for
a `d` that `chrono::Duration::from_std` can represent, see C10) the result is
`true` iff `now - requested_at > d`, with equality at the boundary yielding
`false`. -/
theorem is_expired_spec (c : Credentials) (now : Int) :
    (c.expires_in = none → c.is_expired now = some false) ∧
    (∀ d, c.expires_in = some d → d.toNanos ≤ chronoMaxNanos →
      ((c.is_expired now = some true ↔ (d.toNanos : Int) < now - c.requested_at) ∧
        (now - c.requested_at = (d.toNanos : Int) →
          c.is_expired now = some false))) := by
  constructor
  · intro h
    simp [Credentials.is_expired, h]
  · intro d hd hle
    constructor
    · simp [Credentials.is_expired, hd, hle]
    · intro heq
      simp [Credentials.is_expired, hd, hle, heq]

/-- C4 (witness): with a 2-second lifetime issued at instant 0, the credential
is expired at 3 seconds and not expired at exactly 2 seconds (the boundary). -/
theorem is_expired_spec_witness :
    Credentials.is_expired ⟨0, "t", none, some ⟨2, 0⟩⟩ 3000000000 = some true ∧
    Credentials.is_expired ⟨0, "t", none, some ⟨2, 0⟩⟩ 2000000000 = some false := by
  refine ⟨?_, ?_⟩
  · exact ((is_expired_spec ⟨0, "t", none, some ⟨2, 0⟩⟩ 3000000000).2
      ⟨2, 0⟩ rfl (by decide)).1.mpr (by decide)
  · exact ((is_expired_spec ⟨0, "t", none, some ⟨2, 0⟩⟩ 2000000000).2
      ⟨2, 0⟩ rfl (by decide)).2 (by decide)

/-- C5 (counterexample): calling `HubspotClient::authorize` with
`AuthorizeOptions \x7b pkce: true, extra_params: [("duration","permanent")] \x7d`
yields `pkce_verifier = None` and an authorization URL with no
`code_challenge` parameter: the hubspot client never attaches PKCE, whatever
the options request. -/
theorem authorize_pkce_options_cex :
    (HubspotClient.authorize "cid" "http://localhost:1234" ["crm.objects.contacts.read"]
        ⟨true, [("duration", "permanent")]⟩ "csrf").pkce_verifier = none ∧
    ((HubspotClient.authorize "cid" "http://localhost:1234" ["crm.objects.contacts.read"]
        ⟨true, [("duration", "permanent")]⟩ "csrf").url_params.any
      (fun p => p.1 = "code_challenge")) = false := by
  exact ⟨rfl, by decide⟩

/-- C5 (amended): no provider client honours both fields of
`AuthorizeOptions`.  `RedditClient::authorize` ignores its options yet — by
hardcoding both PKCE and `duration=permanent` — produces an authorization URL
containing `code_challenge`, `code_challenge_method=S256` and
`duration=permanent` together with `pkce_verifier = Some _`;
`GithubClient::authorize` always attaches PKCE but ignores `extra_params`, so
no `duration` parameter ever appears; `HubspotClient::authorize` appends
`extra_params` but never attaches PKCE. -/
theorem authorize_provider_behaviour (client_id redirect csrf challenge verifier : String)
    (scopes : List String) (opts : AuthorizeOptions) :
    (("code_challenge", challenge)
        ∈ (RedditClient.authorize client_id redirect scopes opts csrf challenge verifier).url_params ∧
      ("code_challenge_method", "S256")
        ∈ (RedditClient.authorize client_id redirect scopes opts csrf challenge verifier).url_params ∧
      ("duration", "permanent")
        ∈ (RedditClient.authorize client_id redirect scopes opts csrf challenge verifier).url_params ∧
      (RedditClient.authorize client_id redirect scopes opts csrf challenge verifier).pkce_verifier
        = some verifier) ∧
    (("code_challenge", challenge)
        ∈ (GithubClient.authorize client_id redirect scopes opts csrf challenge verifier).url_params ∧
      (GithubClient.authorize client_id redirect scopes opts csrf challenge verifier).pkce_verifier
        = some verifier ∧
      (∀ v, ("duration", v)
        ∉ (GithubClient.authorize client_id redirect scopes opts csrf challenge verifier).url_params)) ∧
    ((∀ kv, kv ∈ opts.extra_params →
        kv ∈ (HubspotClient.authorize client_id redirect scopes opts csrf).url_params) ∧
      (HubspotClient.authorize client_id redirect scopes opts csrf).pkce_verifier = none ∧
      (∀ ch, ("code_challenge", ch)
        ∉ (HubspotClient.authorize client_id redirect scopes
            ⟨true, [("duration", "permanent")]⟩ csrf).url_params)) := by
  refine ⟨⟨?_, ?_, ?_, rfl⟩, ⟨?_, rfl, ?_⟩, ⟨?_, rfl, ?_⟩⟩
  · simp [RedditClient.authorize, oauth2AuthorizeUrlParams]
  · simp [RedditClient.authorize, oauth2AuthorizeUrlParams]
  · simp [RedditClient.authorize, oauth2AuthorizeUrlParams]
  · simp [GithubClient.authorize, oauth2AuthorizeUrlParams]
  · intro v
    simp [GithubClient.authorize, oauth2AuthorizeUrlParams]
  · intro kv hkv
    simp [HubspotClient.authorize, oauth2AuthorizeUrlParams]
    tauto
  · intro ch
    simp [HubspotClient.authorize, oauth2AuthorizeUrlParams]

/-- C6: when the held credentials carry no refresh token,
`GithubClient::refresh_credentials` succeeds without touching the client state
or the exchange (the outcome is the same for every possible exchange
function, so no token exchange is performed and nothing is published), and
`get_check_client` on such a client with an expired credential returns the
existing (stale) HTTP client without error. -/
theorem refresh_noop_without_refresh_token (now : Int) (st : ProviderState)
    (exchange : String → Except String BasicTokenResponse)
    (hrt : st.credentials.refresh_token = none) :
    GithubClient.refresh_credentials now st exchange = ⟨st, .ok (), []⟩ ∧
    (st.credentials.is_expired now = some true →
      get_check_client (fun s : ProviderState => s.credentials) (fun s => s.http)
        (githubRefreshFn now exchange) now st = some (.ok st.http, 1, st)) := by
  have h1 : GithubClient.refresh_credentials now st exchange = ⟨st, .ok (), []⟩ := by
    simp [GithubClient.refresh_credentials, hrt]
  refine ⟨h1, ?_⟩
  intro hexp
  simp [get_check_client, hexp, githubRefreshFn, h1]

/-- C6 (witness): a client holding an expired credential with no refresh token
gets its existing HTTP client back from `get_check_client` without error,
even though the network exchange would fail if attempted. -/
theorem refresh_noop_without_refresh_token_witness :
    get_check_client (fun s : ProviderState => s.credentials) (fun s => s.http)
      (githubRefreshFn 2000000000 (fun _ => .error "no network")) 2000000000
      ⟨⟨0, "tok", none, some ⟨1, 0⟩⟩, "tok", ⟨⟨0, "tok", none, some ⟨1, 0⟩⟩, 1⟩⟩
      = some (.ok "tok", 1,
          ⟨⟨0, "tok", none, some ⟨1, 0⟩⟩, "tok", ⟨⟨0, "tok", none, some ⟨1, 0⟩⟩, 1⟩⟩) := by
  exact (refresh_noop_without_refresh_token 2000000000
    ⟨⟨0, "tok", none, some ⟨1, 0⟩⟩, "tok", ⟨⟨0, "tok", none, some ⟨1, 0⟩⟩, 1⟩⟩
    (fun _ => .error "no network") rfl).2 (by decide)

/-- C7 (counterexample): `refresh_credentials` uses `?` on
`on_refresh_tx.send`, so at a state whose watch channel has no live receiver a
successful token exchange still ends with the publish failure reported as an
error to the caller — publish failure is not swallowed. -/
theorem refresh_publish_failure_reported :
    (GithubClient.refresh_credentials 0
      ⟨⟨0, "old", some "r", none⟩, "old", ⟨⟨0, "old", some "r", none⟩, 0⟩⟩
      (fun _ => .ok ⟨"new", some "r2", none⟩)).result = .error "channel closed" ∧
    (GithubClient.refresh_credentials 0
      ⟨⟨0, "old", some "r", none⟩, "old", ⟨⟨0, "old", some "r", none⟩, 0⟩⟩
      (fun _ => .ok ⟨"new", some "r2", none⟩)).published = [] := by
  exact ⟨rfl, rfl⟩

/-- C7 (amended): after a successful refresh token exchange whose new access
token is a legal header value (so that `auth_http_client` succeeds),
`refresh_credentials` (github and hubspot alike) publishes exactly one new
`Credentials` value on the watch channel provided a receiver is alive — which
is always the case in practice, since the client struct retains its own
`on_refresh_rx`; if every receiver were dropped, the send failure would be
propagated to the caller as an error (the send result is questioned with
`?`), with nothing published; and when the new access token is not a legal
header value, the `auth_http_client(..)?` between exchange and publish errors
first, likewise publishing nothing. -/
theorem refresh_publishes_exactly_once (now : Int) (st : ProviderState)
    (rt : String) (tok : BasicTokenResponse)
    (gex : String → Except String BasicTokenResponse)
    (hex : String → Except RequestTokenError BasicTokenResponse)
    (hrt : st.credentials.refresh_token = some rt)
    (hg : gex rt = .ok tok) (hh : hex rt = .ok tok) :
    (tok.access_token.toList.all isValidHeaderChar = true →
      (0 < st.channel.receivers →
        (GithubClient.refresh_credentials now st gex).published
            = [st.credentials.apply_token_response now tok] ∧
        (GithubClient.refresh_credentials now st gex).result = .ok () ∧
        (HubspotClient.refresh_credentials now st hex).published
            = [st.credentials.apply_token_response now tok] ∧
        (HubspotClient.refresh_credentials now st hex).result = .ok ()) ∧
      (st.channel.receivers = 0 →
        (GithubClient.refresh_credentials now st gex).result
            = .error "channel closed" ∧
        (GithubClient.refresh_credentials now st gex).published = [])) ∧
    (tok.access_token.toList.all isValidHeaderChar = false →
      (GithubClient.refresh_credentials now st gex).result
          = .error "failed to parse header value" ∧
      (GithubClient.refresh_credentials now st gex).published = [] ∧
      (HubspotClient.refresh_credentials now st hex).published = []) := by
  constructor
  · intro hv
    have hac : auth_http_client tok.access_token = .ok tok.access_token := by
      simp only [auth_http_client]
      rw [hv]
      simp
    constructor
    · intro hpos
      have hne : st.channel.receivers ≠ 0 := Nat.pos_iff_ne_zero.mp hpos
      refine ⟨?_, ?_, ?_, ?_⟩ <;>
        simp [GithubClient.refresh_credentials, HubspotClient.refresh_credentials,
          WatchChannel.send, hrt, hg, hh, hac, hne]
    · intro hz
      constructor <;>
        simp [GithubClient.refresh_credentials, WatchChannel.send, hrt, hg, hac, hz]
  · intro hv
    have hac : auth_http_client tok.access_token
        = .error "failed to parse header value" := by
      simp only [auth_http_client]
      rw [hv]
      simp
    refine ⟨?_, ?_, ?_⟩ <;>
      simp [GithubClient.refresh_credentials, HubspotClient.refresh_credentials,
        hrt, hg, hh, hac]

/-- C7 (witness): with one live receiver and a header-legal new access token,
a successful refresh exchange publishes exactly the one freshly built
credential and returns success. -/
theorem refresh_publishes_exactly_once_witness :
    (GithubClient.refresh_credentials 0
      ⟨⟨0, "old", some "r", none⟩, "old", ⟨⟨0, "old", some "r", none⟩, 1⟩⟩
      (fun _ => .ok ⟨"new", some "r2", none⟩)).published
        = [⟨0, "new", some "r2", none⟩] := by
  exact (((refresh_publishes_exactly_once 0
    ⟨⟨0, "old", some "r", none⟩, "old", ⟨⟨0, "old", some "r", none⟩, 1⟩⟩
    "r" ⟨"new", some "r2", none⟩
    (fun _ => .ok ⟨"new", some "r2", none⟩)
    (fun _ => .ok ⟨"new", some "r2", none⟩)
    rfl rfl rfl).1 (by decide)).1 (by decide)).1

/-- C8: when the hubspot token endpoint fails with a `Parse` error (the error
body did not match the standard OAuth error JSON shape), the error message is
the raw response body decoded as UTF-8 whenever that decoding succeeds, and
falls back to the parser's own error message exactly when the raw bytes are
not valid UTF-8; `HubspotClient::refresh_credentials` surfaces that same
message to its caller. -/
theorem hubspot_parse_error_fallback (now : Int) (st : ProviderState)
    (rt emsg : String) (og : List Nat)
    (exchange : String → Except RequestTokenError BasicTokenResponse)
    (hrt : st.credentials.refresh_token = some rt)
    (hex : exchange rt = .error (.Parse emsg og)) :
    (∀ s, utf8DecodeString og = some s →
        hubspotTokenErrorMsg (.Parse emsg og) = s ∧
        (HubspotClient.refresh_credentials now st exchange).result = .error s) ∧
    (utf8DecodeString og = none →
        hubspotTokenErrorMsg (.Parse emsg og) = emsg ∧
        (HubspotClient.refresh_credentials now st exchange).result = .error emsg) := by
  constructor
  · intro s hs
    constructor
    · simp [hubspotTokenErrorMsg, hs]
    · simp [HubspotClient.refresh_credentials, hrt, hex, hubspotTokenErrorMsg, hs]
  · intro hn
    constructor
    · simp [hubspotTokenErrorMsg, hn]
    · simp [HubspotClient.refresh_credentials, hrt, hex, hubspotTokenErrorMsg, hn]

/-- C8 (witness): the bytes `[104, 105]` decode as the UTF-8 text "hi", which
becomes the error message; the lone byte `[255]` is invalid UTF-8, so the
parser's message "parse failed" is used instead. -/
theorem hubspot_parse_error_fallback_witness :
    (HubspotClient.refresh_credentials 0
        ⟨⟨0, "old", some "r", none⟩, "old", ⟨⟨0, "old", some "r", none⟩, 1⟩⟩
        (fun _ => .error (.Parse "parse failed" [104, 105]))).result
      = .error "hi" ∧
    (HubspotClient.refresh_credentials 0
        ⟨⟨0, "old", some "r", none⟩, "old", ⟨⟨0, "old", some "r", none⟩, 1⟩⟩
        (fun _ => .error (.Parse "parse failed" [255]))).result
      = .error "parse failed" := by
  constructor
  · exact ((hubspot_parse_error_fallback 0
      ⟨⟨0, "old", some "r", none⟩, "old", ⟨⟨0, "old", some "r", none⟩, 1⟩⟩
      "r" "parse failed" [104, 105]
      (fun _ => .error (.Parse "parse failed" [104, 105])) rfl rfl).1 "hi"
        (by decide)).2
  · exact ((hubspot_parse_error_fallback 0
      ⟨⟨0, "old", some "r", none⟩, "old", ⟨⟨0, "old", some "r", none⟩, 1⟩⟩
      "r" "parse failed" [255]
      (fun _ => .error (.Parse "parse failed" [255])) rfl rfl).2 (by decide)).2

/-- C9: in every provider client (github, hubspot, reddit), a failure of the
refresh token exchange makes `refresh_credentials` return that error with the
client state — credentials, HTTP client, and notification state — exactly as
it was, and nothing is published or passed to the refresh callback. -/
theorem refresh_atomic_on_exchange_failure (now : Int) (st : ProviderState)
    (rst : RedditState) (rt e : String) (he : RequestTokenError)
    (gex : String → Except String BasicTokenResponse)
    (hex : String → Except RequestTokenError BasicTokenResponse)
    (rex : String → Except String BasicTokenResponse)
    (hrt : st.credentials.refresh_token = some rt)
    (hrrt : rst.credentials.refresh_token = some rt)
    (hg : gex rt = .error e) (hh : hex rt = .error he) (hr : rex rt = .error e) :
    GithubClient.refresh_credentials now st gex = ⟨st, .error e, []⟩ ∧
    HubspotClient.refresh_credentials now st hex
      = ⟨st, .error (hubspotTokenErrorMsg he), []⟩ ∧
    RedditClient.refresh_credentials now rst rex = ⟨rst, .error e⟩ := by
  refine ⟨?_, ?_, ?_⟩
  · simp [GithubClient.refresh_credentials, hrt, hg]
  · simp [HubspotClient.refresh_credentials, hrt, hh]
  · simp [RedditClient.refresh_credentials, hrrt, hr]

/-- C9 (witness): at a concrete client state whose exchange fails with
"boom", all three providers leave the state untouched and return the error. -/
theorem refresh_atomic_on_exchange_failure_witness :
    GithubClient.refresh_credentials 7
        ⟨⟨0, "a", some "r", none⟩, "a", ⟨⟨0, "a", some "r", none⟩, 1⟩⟩
        (fun _ => .error "boom")
      = ⟨⟨⟨0, "a", some "r", none⟩, "a", ⟨⟨0, "a", some "r", none⟩, 1⟩⟩,
          .error "boom", []⟩ ∧
    RedditClient.refresh_credentials 7 ⟨⟨0, "a", some "r", none⟩, "a", []⟩
        (fun _ => .error "boom")
      = ⟨⟨⟨0, "a", some "r", none⟩, "a", []⟩, .error "boom"⟩ := by
  have h := refresh_atomic_on_exchange_failure 7
    ⟨⟨0, "a", some "r", none⟩, "a", ⟨⟨0, "a", some "r", none⟩, 1⟩⟩
    ⟨⟨0, "a", some "r", none⟩, "a", []⟩ "r" "boom" (.OtherErr "boom")
    (fun _ => .error "boom") (fun _ => .error (.OtherErr "boom"))
    (fun _ => .error "boom") rfl rfl rfl rfl rfl
  exact ⟨h.1, h.2.2⟩

/-- C10: `Credentials::is_expired` is not total: whenever the stored lifetime
exceeds `i64::MAX` milliseconds (the largest `chrono::Duration`), the
`chrono::Duration::from_std(..).expect("Unable to convert duration")`
conversion panics instead of returning a boolean, and a boolean is returned
exactly for representable lifetimes. -/
theorem is_expired_panics_on_unrepresentable_lifetime (c : Credentials)
    (now : Int) (d : StdDuration) (hd : c.expires_in = some d) :
    (chronoMaxNanos < d.toNanos → c.is_expired now = none) ∧
    (d.toNanos ≤ chronoMaxNanos → ∃ b, c.is_expired now = some b) := by
  constructor
  · intro h
    simp [Credentials.is_expired, hd, Nat.not_le.mpr h]
  · intro h
    refine ⟨decide ((d.toNanos : Int) < now - c.requested_at), ?_⟩
    simp [Credentials.is_expired, hd, h]

/-- C10 (witness): a lifetime of `2^63` seconds (representable in the `u64`
seconds of a `std::time::Duration`) exceeds `i64::MAX` milliseconds, so
`is_expired` panics rather than returning a boolean. -/
theorem is_expired_panics_witness :
    Credentials.is_expired ⟨0, "t", none, some ⟨9223372036854775808, 0⟩⟩ 0 = none := by
  exact (is_expired_panics_on_unrepresentable_lifetime
    ⟨0, "t", none, some ⟨9223372036854775808, 0⟩⟩ 0 ⟨9223372036854775808, 0⟩ rfl).1
    (by decide)
